import Mathlib

/-!
Shallow embedding of the Plant Ranger Alexa skill backend
(src/lambda/alexa-handler.ts, src/lambda/utils/oauth.ts,
src/lambda/utils/api-client.ts).

Conventions of the embedding:
* JavaScript `undefined`-able values become `Option`.
* JavaScript truthiness on strings (`""` is falsy) is made explicit via
  `jsTruthy` / `jsOrD` / `firstTruthy`.
* Machine time (`Date.now()`) is a `Nat` (epoch milliseconds) supplied by the
  environment; outbound HTTP calls are modelled by outcomes supplied by the
  environment (`HttpOutcome`), and fallible code returns `Except JsError`.
* Effects (DynamoDB gets/puts, token-refresh calls, per-entity API fetches)
  are recorded in an explicit trace so that "never consulted" / "exactly one
  call" statements can be proved.
-/

/-- JavaScript truthiness filter for strings: `""`, like `undefined`, is falsy. -/
def jsTruthy (o : Option String) : Option String :=
  match o with
  | some s => if s = "" then none else some s
  | none => none

/-- JavaScript `x || d` for a possibly-undefined string `x` and default `d`. -/
def jsOrD (o : Option String) (d : String) : String :=
  match jsTruthy o with
  | some s => s
  | none => d

/-- JavaScript `a || b` for two possibly-undefined strings, as used in
`request.context?.System?.user?.accessToken || request.session?.user?.accessToken`
followed by a truthiness test. -/
def firstTruthy (a b : Option String) : Option String :=
  match jsTruthy a with
  | some s => some s
  | none => jsTruthy b

/-- JavaScript template-literal rendering of a possibly-undefined string
(`undefined` prints as the string "undefined"). -/
def jsTemplateOpt (o : Option String) : String :=
  match o with
  | some s => s
  | none => "undefined"

/-- Whitespace as matched by the regex class and by `String.prototype.trim`
(ASCII portion). -/
def isJsSpace (c : Char) : Bool :=
  c = ' ' || c = '\t' || c = '\n' || c = '\r' || c = '\x0b' || c = '\x0c'

/-- Embeds `String.prototype.trim` on the character list. -/
def trimChars (l : List Char) : List Char :=
  ((l.dropWhile isJsSpace).reverse.dropWhile isJsSpace).reverse

/-- Embeds `String.prototype.trim`. -/
def trimStr (s : String) : String := String.mk (trimChars s.toList)

/-- Embeds `String.prototype.toLowerCase` (ASCII portion). -/
def lowerStr (s : String) : String := String.mk (s.toList.map Char.toLower)

/-- Does `needle` occur at the head of the list? -/
def leadsList : List Char → List Char → Bool
  | [], _ => true
  | _ :: _, [] => false
  | a :: as, b :: bs => a == b && leadsList as bs

/-- Does `needle` occur contiguously anywhere in the list? -/
def containsSeq (needle : List Char) : List Char → Bool
  | [] => leadsList needle []
  | b :: bs => leadsList needle (b :: bs) || containsSeq needle bs

/-- Embeds `hay.includes(needle)` from JavaScript. -/
def strIncludes (hay needle : String) : Bool :=
  containsSeq needle.toList hay.toList

/-! ## Data model (oauth.ts, api-client.ts) -/

/-- Embeds `StoredTokens` from oauth.ts. -/
structure StoredTokens where
  accessToken : String
  refreshToken : Option String
  expiresAt : Nat
  tokenType : String
deriving DecidableEq

/-- Body of a successful token-refresh response (`tokenResponse` in oauth.ts). -/
structure TokenResponse where
  access_token : String
  refresh_token : Option String
  expires_in : Nat
  token_type : String
deriving DecidableEq

/-- The DynamoDB item written by `OAuthManager.updateTokens`. -/
structure TokenItem where
  userId : String
  tokenKind : String
  token : String
  expiresAt : Nat
  tokenTypeValue : String
deriving DecidableEq

/-- A thrown JavaScript `Error` as observed by the handler code: a message and,
when a raw axios error escapes, the `error.response.status` field.  Errors
constructed via `new Error(message)` carry no response, hence `none`. -/
structure JsError where
  message : String
  responseStatus : Option Nat
deriving DecidableEq

/-- Outcome of one outbound axios call, supplied by the environment:
a 2xx body, a non-2xx HTTP status, or a timeout (`ECONNABORTED`). -/
inductive HttpOutcome (α : Type) where
  | ok (data : α) : HttpOutcome α
  | httpError (status : Nat) : HttpOutcome α
  | timedOut : HttpOutcome α
deriving DecidableEq

/-- Embeds `response.data` of the `/health` endpoint. -/
structure HealthData where
  status : Option String
deriving DecidableEq

/-- Embeds `PlantHealthResponse` from api-client.ts (the `lastChecked` wall-clock
timestamp is outside the embedding). -/
structure PlantHealthResponse where
  status : String
  message : String
  recommendations : List String
deriving DecidableEq

/-- A team as returned by `/v1/teams`. -/
structure Team where
  id : String
  name : Option String
deriving DecidableEq

/-- Embeds `response.data` of `/v1/teams` (`teamsResponse.teams || []`). -/
structure TeamsData where
  teams : Option (List Team)
deriving DecidableEq

/-- A plant record inside a team-details response, with the alternative
status/flag field conventions probed by the handler. -/
structure PlantSummary where
  id : String
  name : Option String
  status : Option String
  needs_water : Option Bool
  needsWater : Option Bool
deriving DecidableEq

/-- A checkup record of a plant-details response. -/
structure Checkup where
  status : Option String
  needs_watered : Option Bool
  needsWatered : Option Bool
deriving DecidableEq

/-- Embeds `response.data` of `/v1/plants/{id}`. -/
structure PlantDetails where
  name : Option String
  status : Option String
  needs_water : Option Bool
  needsWater : Option Bool
  checkups : List Checkup
deriving DecidableEq

/-- Embeds `response.data` of `/v1/teams/{id}` (`teamDetails.plants || []`). -/
structure TeamDetails where
  name : Option String
  plants : Option (List PlantSummary)
deriving DecidableEq

/-! ## OAuthManager (oauth.ts) -/

/-- The item `OAuthManager.updateTokens` writes to the token table. -/
def updateTokensItem (userId : String) (now : Nat) (tr : TokenResponse) : TokenItem :=
  { userId := userId
    tokenKind := "access"
    token := tr.access_token
    expiresAt := now + tr.expires_in * 1000
    tokenTypeValue := tr.token_type }

/-- Result of `OAuthManager.ensureValidTokens` together with its effects. -/
structure OAuthStep where
  result : Except JsError StoredTokens
  refreshCalls : Nat
  puts : List TokenItem

/-- Embeds `OAuthManager.ensureValidTokens`: refresh the stored tokens when
`Date.now() >= tokens.expiresAt`, persisting the refreshed item;
throw when no refresh token is present (JS truthiness: an empty-string
refresh token also throws) or when the refresh HTTP call fails. -/
def ensureValidTokens (now : Nat) (refreshOutcome : Option TokenResponse)
    (userId : String) (tokens : StoredTokens) : OAuthStep :=
  if tokens.expiresAt ≤ now then
    match jsTruthy tokens.refreshToken with
    | none =>
      { result := .error { message := "No refresh token available", responseStatus := none }
        refreshCalls := 0
        puts := [] }
    | some rt =>
      match refreshOutcome with
      | none =>
        { result := .error { message := "refresh request failed", responseStatus := none }
          refreshCalls := 1
          puts := [] }
      | some tr =>
        { result := .ok
            { accessToken := tr.access_token
              refreshToken := firstTruthy tr.refresh_token (some rt)
              expiresAt := now + tr.expires_in * 1000
              tokenType := tr.token_type }
          refreshCalls := 1
          puts := [updateTokensItem userId now tr] }
  else
    { result := .ok tokens, refreshCalls := 0, puts := [] }

/-! ## ApiClient (api-client.ts) -/

/-- The request shape each ApiClient method passes to axios. -/
structure HttpRequest where
  path : String
  headers : List (String × String)
  timeoutMs : Nat
deriving DecidableEq

def contentTypeHeader : String × String := ("Content-Type", "application/json")

def bearerHeader (token : String) : String × String :=
  ("Authorization", "Bearer " ++ token)

/-- The request built by `ApiClient.checkPlantHealth` (Authorization header
only when the optional token is truthy). -/
def healthRequest (token : Option String) : HttpRequest :=
  { path := "/health"
    headers := contentTypeHeader ::
      (match jsTruthy token with
       | some t => [bearerHeader t]
       | none => [])
    timeoutMs := 10000 }

/-- The request built by `ApiClient.getTeams`. -/
def teamsRequest (token : String) : HttpRequest :=
  { path := "/v1/teams"
    headers := [contentTypeHeader, bearerHeader token]
    timeoutMs := 10000 }

/-- The request built by `ApiClient.getTeamDetails`. -/
def teamDetailsRequest (token teamId : String) : HttpRequest :=
  { path := "/v1/teams/" ++ teamId
    headers := [contentTypeHeader, bearerHeader token]
    timeoutMs := 10000 }

/-- The request built by `ApiClient.getPlantDetails`. -/
def plantDetailsRequest (token plantId : String) : HttpRequest :=
  { path := "/v1/plants/" ++ plantId
    headers := [contentTypeHeader, bearerHeader token]
    timeoutMs := 10000 }

/-- Embeds `ApiClient.getStatusMessage`. -/
def getStatusMessage (status : String) : String :=
  if lowerStr status = "healthy" then
    "Your plants are doing great! They appear to be in excellent health."
  else if lowerStr status = "warning" then
    "Your plants need some attention. There are a few issues that should be addressed."
  else if lowerStr status = "critical" then
    "Your plants need immediate care. Please check them as soon as possible."
  else
    "Plant health status is currently unknown. Please check your plants manually."

/-- Embeds `ApiClient.getRecommendations`. -/
def getRecommendations (status : String) : List String :=
  if lowerStr status = "healthy" then
    ["Continue your current care routine",
     "Monitor soil moisture regularly",
     "Check for pests weekly"]
  else if lowerStr status = "warning" then
    ["Check soil moisture levels",
     "Ensure adequate lighting",
     "Review watering schedule",
     "Check for signs of pests or disease"]
  else if lowerStr status = "critical" then
    ["Check soil moisture immediately",
     "Inspect for pests or disease",
     "Consider adjusting watering schedule",
     "Ensure proper drainage",
     "Check lighting conditions"]
  else
    ["Check soil moisture",
     "Inspect plant leaves and stems",
     "Ensure adequate lighting",
     "Review watering schedule"]

/-- Embeds `ApiClient.checkPlantHealth` response handling: on success transform
`response.data.status || 'Unknown'`; on failure wrap the axios error in a
plain `Error` (5xx, timeout, and everything else each get a fixed message,
and the wrapper drops the HTTP response object). -/
def checkPlantHealth (outcome : HttpOutcome HealthData) : Except JsError PlantHealthResponse :=
  match outcome with
  | .ok d =>
    let apiStatus := jsOrD d.status "Unknown"
    .ok { status := apiStatus
          message := getStatusMessage apiStatus
          recommendations := getRecommendations apiStatus }
  | .httpError s =>
    if 500 ≤ s then
      .error { message := "Plant health service is temporarily unavailable", responseStatus := none }
    else
      .error { message := "Failed to retrieve plant health data", responseStatus := none }
  | .timedOut =>
    .error { message := "Request timeout - please try again", responseStatus := none }

/-- Embeds `ApiClient.getTeams` response handling: only HTTP 401 gets a distinct
message; every other failure becomes the generic teams failure. -/
def getTeams (outcome : HttpOutcome TeamsData) : Except JsError TeamsData :=
  match outcome with
  | .ok d => .ok d
  | .httpError s =>
    if s = 401 then
      .error { message := "Unauthorized - please link your account", responseStatus := none }
    else
      .error { message := "Failed to retrieve teams", responseStatus := none }
  | .timedOut => .error { message := "Failed to retrieve teams", responseStatus := none }

/-- Embeds `ApiClient.getTeamDetails` response handling. -/
def getTeamDetails (outcome : HttpOutcome TeamDetails) : Except JsError TeamDetails :=
  match outcome with
  | .ok d => .ok d
  | .httpError s =>
    if s = 404 then
      .error { message := "Team not found", responseStatus := none }
    else if s = 401 then
      .error { message := "Unauthorized - please link your account", responseStatus := none }
    else
      .error { message := "Failed to retrieve team details", responseStatus := none }
  | .timedOut => .error { message := "Failed to retrieve team details", responseStatus := none }

/-- Embeds `ApiClient.getPlantDetails` response handling. -/
def getPlantDetails (outcome : HttpOutcome PlantDetails) : Except JsError PlantDetails :=
  match outcome with
  | .ok d => .ok d
  | .httpError s =>
    if s = 404 then
      .error { message := "Plant not found", responseStatus := none }
    else if s = 401 then
      .error { message := "Unauthorized - please link your account", responseStatus := none }
    else
      .error { message := "Failed to retrieve plant details", responseStatus := none }
  | .timedOut => .error { message := "Failed to retrieve plant details", responseStatus := none }

/-! ## Invocation environment -/

/-- Everything one Alexa invocation can observe: the tokens embedded in the
request, the DynamoDB record for this user (`OAuthManager.getTokens` result;
`none` also covers a store read error, which `getTokens` catches and turns
into `null`), the static `PLANT_RANGER_API_TOKEN` environment variable,
the current time, and the outcome of each possible outbound HTTP call. -/
structure Env where
  ctxToken : Option String
  sessToken : Option String
  stored : Option StoredTokens
  staticToken : Option String
  now : Nat
  refreshOutcome : Option TokenResponse
  healthOutcome : HttpOutcome HealthData
  teamsOutcome : HttpOutcome TeamsData
  teamDetailsOutcome : String → HttpOutcome TeamDetails
  plantDetailsOutcome : String → HttpOutcome PlantDetails

/-- Result of `getAccessToken` in alexa-handler.ts together with its effects:
how many times the token store was read, how many refresh calls were made,
and which items were written back. -/
structure GetTokenResult where
  result : Except JsError (Option String)
  storeGets : Nat
  refreshCalls : Nat
  puts : List TokenItem

/-- Embeds `getAccessToken` from alexa-handler.ts: embedded request token first
(`context.System.user.accessToken || session.user.accessToken`), then the
DynamoDB record (refreshed via `ensureValidTokens` when present; refresh
errors propagate), then the static environment token, else `null`. -/
def getAccessToken (env : Env) (userId : String) : GetTokenResult :=
  match firstTruthy env.ctxToken env.sessToken with
  | some t => { result := .ok (some t), storeGets := 0, refreshCalls := 0, puts := [] }
  | none =>
    match env.stored with
    | some tokens =>
      let step := ensureValidTokens env.now env.refreshOutcome userId tokens
      { result := Except.map (fun ts => some ts.accessToken) step.result
        storeGets := 1
        refreshCalls := step.refreshCalls
        puts := step.puts }
    | none =>
      match jsTruthy env.staticToken with
      | some s => { result := .ok (some s), storeGets := 1, refreshCalls := 0, puts := [] }
      | none => { result := .ok none, storeGets := 1, refreshCalls := 0, puts := [] }

/-! ## Alexa response model -/

structure OutputSpeech where
  speechType : String
  text : String
deriving DecidableEq

structure Card where
  cardType : String
  title : Option String
  content : Option String
deriving DecidableEq

structure Reprompt where
  text : String
deriving DecidableEq

structure ResponseBody where
  outputSpeech : Option OutputSpeech
  card : Option Card
  reprompt : Option Reprompt
  shouldEndSession : Bool
deriving DecidableEq

structure AlexaResponse where
  version : String
  response : ResponseBody
deriving DecidableEq

/-- Build the `version: '1.0'` PlainText response shape every handler emits. -/
def plainResponse (text : String) (repromptText : Option String)
    (card : Option Card) (endSession : Bool) : AlexaResponse :=
  { version := "1.0"
    response :=
      { outputSpeech := some { speechType := "PlainText", text := text }
        card := card
        reprompt := repromptText.map (fun t => { text := t })
        shouldEndSession := endSession } }

def linkAccountCard : Card := { cardType := "LinkAccount", title := none, content := none }

/-- Embeds `createErrorResponse` from alexa-handler.ts. -/
def createErrorResponse (message : String) : AlexaResponse :=
  plainResponse message none none true

/-- Embeds `handleLaunchRequest`. -/
def handleLaunchRequest : AlexaResponse :=
  plainResponse
    "Welcome to Plant Ranger Check! I can help you check the health of your plants. Just say \"check my plant health\" to get started."
    (some "You can say \"check my plant health\" to check your plant status, or \"help\" for more information.")
    none false

/-- Embeds `handleHelpIntent`. -/
def handleHelpIntent : AlexaResponse :=
  plainResponse
    "Plant Ranger Check can help you monitor your plant health. You can say \"check my plant health\" to get a status update, \"list my plant status\" to see which plants need water, or \"check plants in [team name]\" to check a specific team. You can also say \"stop\" to end the session."
    (some "What would you like to do? You can say \"check my plant health\", \"list my plant status\", \"check plants in [team name]\", or \"help\" for more information.")
    none false

/-- Embeds `handleStopIntent` (StopIntent and CancelIntent). -/
def handleStopIntent : AlexaResponse :=
  plainResponse "Goodbye! Take care of your plants!" none none true

/-- The account-linking response (with LinkAccount card) used by the
list-status and team-status handlers when no token is available. -/
def linkAccountStatusResponse : AlexaResponse :=
  plainResponse
    "To check your plant status, you need to link your Plant Ranger account first. Please visit the Alexa app to complete the account linking process."
    none (some linkAccountCard) true

/-- The account-linking response (with LinkAccount card) of the health handler
for a 401/403 on the unauthenticated call. -/
def healthLinkAccountResponse : AlexaResponse :=
  plainResponse
    "To check your plant health, you need to link your Plant Ranger account first. Please visit the Alexa app to complete the account linking process."
    none (some linkAccountCard) true

/-- The card-less account-linking response returned from the catch blocks of
the list-status and team-status handlers when the error message contains
"Unauthorized". -/
def unauthorizedStatusResponse : AlexaResponse :=
  plainResponse
    "To check your plant status, you need to link your Plant Ranger account first. Please visit the Alexa app to complete the account linking process."
    none none true

/-- The "No teams set up yet" response, shared by list-status, team-status. -/
def noTeamsResponse : AlexaResponse :=
  plainResponse
    "You don\x27t have any teams set up yet. Please add a team in the Plant Ranger app first."
    none none true

/-- The "No plants set up yet" response of the list-status handler. -/
def noPlantsResponse : AlexaResponse :=
  plainResponse
    "You don\x27t have any plants set up yet. Please add plants to your teams in the Plant Ranger app."
    none none true

/-- The "which team?" prompt of the team-status handler when the slot is
missing or blank. -/
def whichTeamResponse : AlexaResponse :=
  plainResponse
    "Which team would you like to check? Please tell me the name of the team or group."
    (some "Please say the name of the team you want to check, for example \"check plants in kitchen\" or \"what plants need water in office\".")
    none false

/-- Embeds `teams.map(t => t.name || 'Unnamed Team').join(', ')`. -/
def joinTeamNames (teams : List Team) : String :=
  String.intercalate ", " (teams.map (fun t => jsOrD t.name "Unnamed Team"))

/-- The "team not found" reprompt of the team-status handler, listing the
available team names. -/
def teamNotFoundResponse (teamName : String) (teams : List Team) : AlexaResponse :=
  plainResponse
    ("I couldn\x27t find a team named \"" ++ teamName ++ "\". Your available teams are: " ++
      joinTeamNames teams ++ ". Please try again with one of these team names.")
    (some ("Which team would you like to check? Your teams are: " ++ joinTeamNames teams ++ "."))
    none false

/-- The "team has no plants" response. -/
def teamNoPlantsResponse (mt : Team) : AlexaResponse :=
  plainResponse
    ("The " ++ jsTemplateOpt mt.name ++ " team doesn\x27t have any plants set up yet.")
    none none true

/-- The "could not retrieve plant details" response of the team-status handler
when every per-plant fetch failed. -/
def teamNoDetailsResponse (mt : Team) : AlexaResponse :=
  plainResponse
    ("I couldn\x27t retrieve the plant details for " ++ jsTemplateOpt mt.name ++ ". Please try again later.")
    none none true

/-- An aggregated plant entry (`{ name, id, needsWatered }`). -/
structure PlantEntry where
  name : String
  id : String
  needsWatered : Bool
deriving DecidableEq

def joinPlantNames (l : List PlantEntry) : String :=
  String.intercalate ", " (l.map (fun p => p.name))

/-- The Simple-card content shared by the list-status and team-status
summaries. -/
def plantCardContent (total : Nat) (needing : List PlantEntry) : String :=
  "Total Plants: " ++ toString total ++ "\nNeeds Water: " ++ toString needing.length ++ "\n" ++
    (if needing.length > 0 then "Plants needing water: " ++ joinPlantNames needing
     else "All plants are doing well!")

/-- The spoken summary of the list-status handler. -/
def listSummaryMessage (allPlants needing : List PlantEntry) : String :=
  if needing.length > 0 then
    toString needing.length ++ " plant" ++ (if needing.length ≠ 1 then "s need" else " needs") ++
      " water: " ++ joinPlantNames needing
  else
    "None of your " ++ toString allPlants.length ++ " plant" ++
      (if allPlants.length ≠ 1 then "s need" else " needs") ++
      " water right now. All your plants are doing fine!"

/-- The final response of the list-status handler. -/
def listSummaryResponse (allPlants : List PlantEntry) : AlexaResponse :=
  let needing := allPlants.filter (fun p => p.needsWatered)
  plainResponse (listSummaryMessage allPlants needing)
    none
    (some { cardType := "Simple"
            title := some "Plant Status"
            content := some (plantCardContent allPlants.length needing) })
    true

/-- The spoken summary of the team-status handler. -/
def teamSummaryMessage (mt : Team) (teamPlants : List PlantEntry) : String :=
  let needing := teamPlants.filter (fun p => p.needsWatered)
  let fine := teamPlants.filter (fun p => !p.needsWatered)
  let base := "In " ++ jsTemplateOpt mt.name ++ ", you have " ++ toString teamPlants.length ++
    " plant" ++ (if teamPlants.length ≠ 1 then "s" else "") ++ ". "
  if needing.length > 0 then
    base ++ toString needing.length ++ " plant" ++
      (if needing.length ≠ 1 then "s need" else " needs") ++ " water: " ++ joinPlantNames needing ++
      (if fine.length > 0 then
        ". " ++ toString fine.length ++ " plant" ++ (if fine.length ≠ 1 then "s are" else " is") ++
          " doing fine: " ++ joinPlantNames fine
       else "")
  else
    base ++ "All plants in " ++ jsTemplateOpt mt.name ++ " are doing fine! " ++ joinPlantNames fine

/-- The final response of the team-status handler. -/
def teamSummaryResponse (mt : Team) (teamPlants : List PlantEntry) : AlexaResponse :=
  let needing := teamPlants.filter (fun p => p.needsWatered)
  plainResponse (teamSummaryMessage mt teamPlants)
    none
    (some { cardType := "Simple"
            title := some ("Plant Status - " ++ jsTemplateOpt mt.name)
            content := some (plantCardContent teamPlants.length needing) })
    true

/-- The fallback-intent response listing the user's teams. -/
def fallbackTeamsResponse (teams : List Team) : AlexaResponse :=
  plainResponse
    ("I didn\x27t quite understand. Which team would you like to check? Your teams are: " ++
      joinTeamNames teams ++ ". Please say something like \"check plants in\" followed by the team name.")
    (some ("Which team? Your teams are: " ++ joinTeamNames teams ++ "."))
    none false

/-- The generic fallback-intent response. -/
def fallbackGenericResponse : AlexaResponse :=
  plainResponse
    "I didn\x27t understand. Try saying \"what plants need water in\" followed by your team name, or \"list my plant status\" to see all plants."
    (some "Say \"what plants need water in\" followed by your team name.")
    none false

/-! ## Watering-need inference -/

/-- The status-string test `s === 'needs_water' || s === 'needs water'` used by
the list-status handler. -/
def needsWaterStatus (s : Option String) : Bool :=
  s == some "needs_water" || s == some "needs water"

/-- Per-plant logic of `handleListPlantStatus`: consult the team-details plant
record first (status string, then snake/camel boolean flags); only when none
of those signal water is a per-plant detail fetch issued, probing the detail
status, detail flags, and finally the latest checkup.  Returns the aggregated
entry (`none` when the detail fetch failed and the plant is skipped) together
with the list of plant ids fetched. -/
def listPlantNeeds (env : Env) (plant : PlantSummary) :
    Option PlantEntry × List String :=
  if needsWaterStatus plant.status then
    (some { name := jsOrD plant.name "Unnamed Plant", id := plant.id, needsWatered := true }, [])
  else if plant.needs_water == some true || plant.needsWater == some true then
    (some { name := jsOrD plant.name "Unnamed Plant", id := plant.id, needsWatered := true }, [])
  else
    match getPlantDetails (env.plantDetailsOutcome plant.id) with
    | .error _ => (none, [plant.id])
    | .ok d =>
      let needs :=
        if needsWaterStatus d.status then true
        else if d.needs_water == some true || d.needsWater == some true then true
        else
          match d.checkups with
          | [] => false
          | c :: _ =>
            needsWaterStatus c.status || c.needs_watered == some true || c.needsWatered == some true
      (some { name := jsOrD plant.name "Unnamed Plant", id := plant.id, needsWatered := needs }, [plant.id])

/-- Per-plant logic of `handleCheckTeamPlantStatus`: always fetch the plant
details (the team-details record is not consulted), test only the
`plantDetails.status === 'needs_water'` form, then the latest checkup. -/
def teamPlantNeeds (env : Env) (plant : PlantSummary) :
    Option PlantEntry × List String :=
  match getPlantDetails (env.plantDetailsOutcome plant.id) with
  | .error _ => (none, [plant.id])
  | .ok d =>
    let needs :=
      if d.status == some "needs_water" then true
      else
        match d.checkups with
        | [] => false
        | c :: _ =>
          c.status == some "needs_water" || c.needs_watered == some true || c.needsWatered == some true
    (some { name := jsOrD d.name (jsOrD plant.name "Unnamed Plant")
            id := plant.id
            needsWatered := needs }, [plant.id])

/-- Per-team aggregation results of the list-status handler. -/
structure CollectResult where
  entries : List PlantEntry
  teamCalls : List String
  plantCalls : List String
deriving DecidableEq

/-- The inner plant loop of `handleListPlantStatus` over one team's plants. -/
def collectListForTeam (env : Env) : List PlantSummary → List PlantEntry × List String
  | [] => ([], [])
  | p :: rest =>
    let this := listPlantNeeds env p
    let that := collectListForTeam env rest
    ((match this.1 with
      | some e => e :: that.1
      | none => that.1), this.2 ++ that.2)

/-- The outer team loop of `handleListPlantStatus`: a failed team-details
fetch skips that team; every surviving plant entry is appended. -/
def collectAllPlants (env : Env) : List Team → CollectResult
  | [] => { entries := [], teamCalls := [], plantCalls := [] }
  | t :: rest =>
    let this :=
      match getTeamDetails (env.teamDetailsOutcome t.id) with
      | .error _ => ([], [])
      | .ok td => collectListForTeam env (td.plants.getD [])
    let that := collectAllPlants env rest
    { entries := this.1 ++ that.entries
      teamCalls := t.id :: that.teamCalls
      plantCalls := this.2 ++ that.plantCalls }

/-- The plant loop of `handleCheckTeamPlantStatus` over the matched team's
plants: a failed per-plant fetch skips that plant. -/
def collectTeamPlants (env : Env) : List PlantSummary → List PlantEntry × List String
  | [] => ([], [])
  | p :: rest =>
    let this := teamPlantNeeds env p
    let that := collectTeamPlants env rest
    ((match this.1 with
      | some e => e :: that.1
      | none => that.1), this.2 ++ that.2)

/-! ## Team-name matching -/

/-- Embeds `teamName.toLowerCase().trim()` followed by removal of a leading
`team` word (`.replace(regex of leading team blank, empty)`). -/
def normalizeTeamName (s : String) : String :=
  String.mk (
    match trimChars (lowerStr s).toList with
    | 't' :: 'e' :: 'a' :: 'm' :: c :: rest =>
      if isJsSpace c then (c :: rest).dropWhile isJsSpace
      else 't' :: 'e' :: 'a' :: 'm' :: c :: rest
    | l => l)

/-- The predicate inside `teams.find(...)`: either lowercased name contains
the other, or they are equal; a missing name defaults to the empty string. -/
def matchesTeam (normalized : String) (team : Team) : Bool :=
  let tnl := lowerStr (team.name.getD "")
  strIncludes tnl normalized || strIncludes normalized tnl || tnl == normalized

/-- The team lookup of `handleCheckTeamPlantStatus` (first match wins). -/
def findMatchingTeam (teams : List Team) (spoken : String) : Option Team :=
  teams.find? (matchesTeam (normalizeTeamName spoken))

/-! ## Intent handlers -/

/-- Observable effects of one handler invocation. -/
structure Trace where
  storeGets : Nat
  refreshCalls : Nat
  puts : List TokenItem
  teamsCalls : Nat
  teamDetailCalls : List String
  plantDetailCalls : List String
deriving DecidableEq

def emptyTrace : Trace :=
  { storeGets := 0, refreshCalls := 0, puts := [], teamsCalls := 0
    teamDetailCalls := [], plantDetailCalls := [] }

def tokenTrace (g : GetTokenResult) : Trace :=
  { storeGets := g.storeGets, refreshCalls := g.refreshCalls, puts := g.puts
    teamsCalls := 0, teamDetailCalls := [], plantDetailCalls := [] }

def healthErrorText : String :=
  "Sorry, I couldn\x27t check your plant health right now. Please try again later."

/-- The success response of the health handler. -/
def healthSuccessResponse (ph : PlantHealthResponse) : AlexaResponse :=
  plainResponse ph.status
    none
    (some { cardType := "Simple"
            title := some "Plant Health Check"
            content := some ("Status: " ++ ph.status) })
    true

/-- Embeds `handleCheckPlantHealth`: resolve a token; call the health endpoint (with
or without auth); when the unauthenticated call throws an error whose
`response.status` is 401/403, emit the LinkAccount response (the wrapped
errors thrown by ApiClient never carry a response, so this test never
succeeds); every other error reaches the outer catch. -/
def handleCheckPlantHealth (env : Env) (userId : String) : AlexaResponse × Trace :=
  let g := getAccessToken env userId
  let tr := tokenTrace g
  match g.result with
  | .error _ => (createErrorResponse healthErrorText, tr)
  | .ok (some _) =>
    match checkPlantHealth env.healthOutcome with
    | .ok ph => (healthSuccessResponse ph, tr)
    | .error _ => (createErrorResponse healthErrorText, tr)
  | .ok none =>
    match checkPlantHealth env.healthOutcome with
    | .ok ph => (healthSuccessResponse ph, tr)
    | .error e =>
      if e.responseStatus == some 401 || e.responseStatus == some 403 then
        (healthLinkAccountResponse, tr)
      else
        (createErrorResponse healthErrorText, tr)

/-- The catch block of `handleListPlantStatus`. -/
def listCatchResponse (e : JsError) : AlexaResponse :=
  if strIncludes e.message "Unauthorized" then unauthorizedStatusResponse
  else createErrorResponse
    "Sorry, I couldn\x27t retrieve your plant status right now. Please try again later."

/-- The part of `handleListPlantStatus` after the teams list is in hand. -/
def listStatusWithTeams (env : Env) (teams : List Team) : AlexaResponse × CollectResult :=
  if teams.isEmpty then
    (noTeamsResponse, { entries := [], teamCalls := [], plantCalls := [] })
  else
    let col := collectAllPlants env teams
    if col.entries.isEmpty then (noPlantsResponse, col)
    else (listSummaryResponse col.entries, col)

/-- Embeds `handleListPlantStatus`. -/
def handleListPlantStatus (env : Env) (userId : String) : AlexaResponse × Trace :=
  let g := getAccessToken env userId
  let tr := tokenTrace g
  match g.result with
  | .error e => (listCatchResponse e, tr)
  | .ok none => (linkAccountStatusResponse, tr)
  | .ok (some _) =>
    match getTeams env.teamsOutcome with
    | .error e => (listCatchResponse e, { tr with teamsCalls := 1 })
    | .ok tdata =>
      let r := listStatusWithTeams env (tdata.teams.getD [])
      (r.1, { tr with teamsCalls := 1
                      teamDetailCalls := r.2.teamCalls
                      plantDetailCalls := r.2.plantCalls })

/-- The catch block of `handleCheckTeamPlantStatus`. -/
def teamCatchResponse (e : JsError) : AlexaResponse :=
  if strIncludes e.message "Unauthorized" then unauthorizedStatusResponse
  else createErrorResponse
    "Sorry, I couldn\x27t retrieve the plant status for that team right now. Please try again later."

/-- Embeds `!teamName || teamName.trim() === ''`. -/
def blankTeamName (teamName : Option String) : Bool :=
  match jsTruthy teamName with
  | none => true
  | some s => trimStr s = ""

/-- Embeds `handleCheckTeamPlantStatus`. -/
def handleCheckTeamPlantStatus (env : Env) (userId : String)
    (teamName : Option String) : AlexaResponse × Trace :=
  let g := getAccessToken env userId
  let tr := tokenTrace g
  match g.result with
  | .error e => (teamCatchResponse e, tr)
  | .ok none => (linkAccountStatusResponse, tr)
  | .ok (some _) =>
    if blankTeamName teamName then (whichTeamResponse, tr)
    else
      let spoken := teamName.getD ""
      match getTeams env.teamsOutcome with
      | .error e => (teamCatchResponse e, { tr with teamsCalls := 1 })
      | .ok tdata =>
        let teams := tdata.teams.getD []
        let tr1 := { tr with teamsCalls := 1 }
        if teams.isEmpty then (noTeamsResponse, tr1)
        else
          match findMatchingTeam teams spoken with
          | none => (teamNotFoundResponse spoken teams, tr1)
          | some mt =>
            let tr2 := { tr1 with teamDetailCalls := [mt.id] }
            match getTeamDetails (env.teamDetailsOutcome mt.id) with
            | .error e => (teamCatchResponse e, tr2)
            | .ok td =>
              let plants := td.plants.getD []
              if plants.isEmpty then (teamNoPlantsResponse mt, tr2)
              else
                let col := collectTeamPlants env plants
                let tr3 := { tr2 with plantDetailCalls := col.2 }
                if col.1.isEmpty then (teamNoDetailsResponse mt, tr3)
                else (teamSummaryResponse mt col.1, tr3)

/-- Embeds `AMAZON.FallbackIntent` handling inside `handleIntentRequest`: list the
teams when a token is available and teams exist, else the generic reprompt;
any thrown error is caught and also yields the generic reprompt. -/
def handleFallbackIntent (env : Env) (userId : String) : AlexaResponse × Trace :=
  let g := getAccessToken env userId
  let tr := tokenTrace g
  match g.result with
  | .error _ => (fallbackGenericResponse, tr)
  | .ok none => (fallbackGenericResponse, tr)
  | .ok (some _) =>
    match getTeams env.teamsOutcome with
    | .error _ => (fallbackGenericResponse, { tr with teamsCalls := 1 })
    | .ok tdata =>
      let teams := tdata.teams.getD []
      if teams.isEmpty then (fallbackGenericResponse, { tr with teamsCalls := 1 })
      else (fallbackTeamsResponse teams, { tr with teamsCalls := 1 })

/-- The `TeamName` slot of a `CheckTeamPlantStatusIntent` request. -/
structure SlotData where
  value : Option String
  resolutionName : Option String
  resolutionId : Option String
deriving DecidableEq

/-- Slot extraction of `handleIntentRequest`:
`slot.value || resolutions value name || resolutions value id`. -/
def extractTeamName (slot : Option SlotData) : Option String :=
  match slot with
  | none => none
  | some s => firstTruthy s.value (firstTruthy s.resolutionName s.resolutionId)

/-- Embeds `handleIntentRequest`: dispatch on the intent name; unknown intents get
the fixed error response. -/
def handleIntentRequest (env : Env) (userId : String) (intentName : String)
    (teamSlot : Option SlotData) : AlexaResponse × Trace :=
  if intentName = "CheckTeamPlantStatusIntent" then
    handleCheckTeamPlantStatus env userId (extractTeamName teamSlot)
  else if intentName = "CheckPlantHealthIntent" then
    handleCheckPlantHealth env userId
  else if intentName = "ListPlantStatusIntent" then
    handleListPlantStatus env userId
  else if intentName = "AMAZON.FallbackIntent" then
    handleFallbackIntent env userId
  else if intentName = "AMAZON.HelpIntent" then
    (handleHelpIntent, emptyTrace)
  else if intentName = "AMAZON.StopIntent" ∨ intentName = "AMAZON.CancelIntent" then
    (handleStopIntent, emptyTrace)
  else
    (createErrorResponse "I didn\x27t understand that. Please try again.", emptyTrace)

/-! ## Supporting lemmas -/

theorem str_length_ne_zero {s : String} (h : s ≠ "") : s.length ≠ 0 := by
  cases s with
  | mk data =>
    cases data with
    | nil => exact absurd rfl h
    | cons a as => simp [String.length]

theorem length_append_ne_zero_left (a b : String) (h : a.length ≠ 0) :
    (a ++ b).length ≠ 0 := by
  rw [String.length_append]; omega

theorem length_append_ne_zero_right (a b : String) (h : b.length ≠ 0) :
    (a ++ b).length ≠ 0 := by
  rw [String.length_append]; omega

theorem jsOrD_length_ne_zero (o : Option String) (d : String) (hd : d ≠ "") :
    (jsOrD o d).length ≠ 0 := by
  unfold jsOrD jsTruthy
  cases o with
  | none => exact str_length_ne_zero hd
  | some s =>
    by_cases hs : s = ""
    · simp [hs]; exact str_length_ne_zero hd
    · simp [hs]; exact str_length_ne_zero hs

theorem containsSeq_nil_needle (l : List Char) : containsSeq [] l = true := by
  cases l with
  | nil => rfl
  | cons b bs => simp [containsSeq, leadsList]

theorem leadsList_self_append (n ext : List Char) : leadsList n (n ++ ext) = true := by
  induction n with
  | nil => rfl
  | cons a as ih => simp [leadsList, ih]

theorem containsSeq_here (n post : List Char) : containsSeq n (n ++ post) = true := by
  cases n with
  | nil => exact containsSeq_nil_needle post
  | cons a as => simp [containsSeq, leadsList, leadsList_self_append]

theorem containsSeq_cons_of (n : List Char) (b : Char) (bs : List Char)
    (h : containsSeq n bs = true) : containsSeq n (b :: bs) = true := by
  simp [containsSeq, h]

theorem containsSeq_append_middle (n pre post : List Char) :
    containsSeq n (pre ++ (n ++ post)) = true := by
  induction pre with
  | nil => exact containsSeq_here n post
  | cons b bs ih => exact containsSeq_cons_of _ _ _ ih

theorem strIncludes_append_middle (a n b : String) : strIncludes (a ++ n ++ b) n = true := by
  unfold strIncludes
  have hl : (a ++ n ++ b).toList = a.toList ++ (n.toList ++ b.toList) := by
    simp [String.toList, String.data_append]
  rw [hl]
  exact containsSeq_append_middle _ _ _

/-- A fully-specified base environment for concrete scenarios: no embedded
token, no stored record, no static token, every remote call failing. -/
def baseEnv : Env :=
  { ctxToken := none
    sessToken := none
    stored := none
    staticToken := none
    now := 1000
    refreshOutcome := none
    healthOutcome := .httpError 500
    teamsOutcome := .httpError 500
    teamDetailsOutcome := fun _ => .httpError 500
    plantDetailsOutcome := fun _ => .httpError 500 }

/-! ## C1: token resolution precedence -/

/-- C1: for every inbound event carrying an embedded access token the token
store is never consulted; with no embedded token but a stored token whose
`expiresAt` is still in the future, no refresh call occurs and the stored
access token is returned; with no embedded token and an expired stored token
that has a refresh token, a successful refresh makes exactly one refresh call
and persists the refreshed token to the store before returning it. -/
theorem c1_token_resolution_precedence :
    (∀ (env : Env) (uid t : String),
      firstTruthy env.ctxToken env.sessToken = some t →
      (getAccessToken env uid).storeGets = 0 ∧
      (getAccessToken env uid).result = .ok (some t)) ∧
    (∀ (env : Env) (uid : String) (st : StoredTokens),
      firstTruthy env.ctxToken env.sessToken = none →
      env.stored = some st →
      env.now < st.expiresAt →
      (getAccessToken env uid).refreshCalls = 0 ∧
      (getAccessToken env uid).result = .ok (some st.accessToken)) ∧
    (∀ (env : Env) (uid : String) (st : StoredTokens) (rt : String) (tr : TokenResponse),
      firstTruthy env.ctxToken env.sessToken = none →
      env.stored = some st →
      st.expiresAt ≤ env.now →
      jsTruthy st.refreshToken = some rt →
      env.refreshOutcome = some tr →
      (getAccessToken env uid).refreshCalls = 1 ∧
      (getAccessToken env uid).puts = [updateTokensItem uid env.now tr] ∧
      (updateTokensItem uid env.now tr).token = tr.access_token ∧
      (getAccessToken env uid).result = .ok (some tr.access_token)) := by
  refine ⟨?_, ?_, ?_⟩
  · intro env uid t h
    simp [getAccessToken, h]
  · intro env uid st h1 h2 h3
    have hle : ¬ st.expiresAt ≤ env.now := by omega
    simp [getAccessToken, h1, h2, ensureValidTokens, hle, Except.map]
  · intro env uid st rt tr h1 h2 h3 h4 h5
    simp [getAccessToken, h1, h2, ensureValidTokens, h3, h4, h5, updateTokensItem, Except.map]

def sampleTokenResponse : TokenResponse :=
  { access_token := "newtok", refresh_token := none, expires_in := 3600, token_type := "Bearer" }

def sampleStoredValid : StoredTokens :=
  { accessToken := "storedtok", refreshToken := some "r1", expiresAt := 2000, tokenType := "Bearer" }

def sampleStoredExpired : StoredTokens :=
  { accessToken := "oldtok", refreshToken := some "r1", expiresAt := 500, tokenType := "Bearer" }

/-- Environment with an expired stored token and a succeeding refresh call. -/
def refreshEnv : Env :=
  { baseEnv with stored := some sampleStoredExpired, refreshOutcome := some sampleTokenResponse }

/-- Concrete instances of the three branches of C1. -/
theorem c1_token_resolution_precedence_witness :
    (getAccessToken { baseEnv with ctxToken := some "embedded" } "u").storeGets = 0 ∧
    (getAccessToken { baseEnv with stored := some sampleStoredValid } "u").refreshCalls = 0 ∧
    (getAccessToken { baseEnv with stored := some sampleStoredValid } "u").result =
      .ok (some "storedtok") ∧
    (getAccessToken refreshEnv "u").refreshCalls = 1 ∧
    (getAccessToken refreshEnv "u").puts = [updateTokensItem "u" 1000 sampleTokenResponse] ∧
    (getAccessToken refreshEnv "u").result = .ok (some "newtok") := by
  refine ⟨(c1_token_resolution_precedence.1 _ "u" "embedded" (by decide)).1,
    (c1_token_resolution_precedence.2.1 _ "u" sampleStoredValid (by decide) rfl (by decide)).1,
    (c1_token_resolution_precedence.2.1 _ "u" sampleStoredValid (by decide) rfl (by decide)).2,
    (c1_token_resolution_precedence.2.2 _ "u" sampleStoredExpired "r1" sampleTokenResponse
      (by decide) rfl (by decide) (by decide) rfl).1,
    (c1_token_resolution_precedence.2.2 _ "u" sampleStoredExpired "r1" sampleTokenResponse
      (by decide) rfl (by decide) (by decide) rfl).2.1,
    (c1_token_resolution_precedence.2.2 _ "u" sampleStoredExpired "r1" sampleTokenResponse
      (by decide) rfl (by decide) (by decide) rfl).2.2.2⟩

/-! ## C5: refresh failure propagates, static fallback only without a record -/

/-- C5: with no embedded token, an expired stored token, and either no refresh
token or a failing refresh call, `getAccessToken` propagates an error, and its
result does not depend on the static environment token; the static fallback is
returned only when no stored record exists at all. -/
theorem c5_refresh_failure_propagates :
    (∀ (env : Env) (uid : String) (st : StoredTokens),
      firstTruthy env.ctxToken env.sessToken = none →
      env.stored = some st →
      st.expiresAt ≤ env.now →
      (jsTruthy st.refreshToken = none ∨ env.refreshOutcome = none) →
      (∃ e, (getAccessToken env uid).result = .error e) ∧
      (∀ s, (getAccessToken { env with staticToken := s } uid).result =
        (getAccessToken env uid).result)) ∧
    (∀ (env : Env) (uid s : String),
      firstTruthy env.ctxToken env.sessToken = none →
      env.stored = none →
      jsTruthy env.staticToken = some s →
      (getAccessToken env uid).result = .ok (some s)) := by
  constructor
  · intro env uid st h1 h2 h3 h4
    constructor
    · rcases hrt : jsTruthy st.refreshToken with _ | rt
      · exact ⟨{ message := "No refresh token available", responseStatus := none },
          by simp [getAccessToken, h1, h2, ensureValidTokens, h3, hrt, Except.map]⟩
      · rcases h4 with h4 | h4
        · rw [h4] at hrt; exact absurd hrt (by simp)
        · exact ⟨{ message := "refresh request failed", responseStatus := none },
          by simp [getAccessToken, h1, h2, ensureValidTokens, h3, hrt, h4, Except.map]⟩
    · intro s
      simp [getAccessToken, h1, h2]
  · intro env uid s h1 h2 h3
    simp [getAccessToken, h1, h2, h3]

/-- Environment with an expired stored token, no refresh token, and a static
fallback token configured. -/
def noRefreshEnv : Env :=
  { baseEnv with
      stored := some { accessToken := "oldtok", refreshToken := none
                       expiresAt := 500, tokenType := "Bearer" }
      staticToken := some "statictok" }

/-- Concrete instances: refresh failure yields an error even though a static
token is configured; without a stored record the static token is returned. -/
theorem c5_refresh_failure_propagates_witness :
    (∃ e, (getAccessToken noRefreshEnv "u").result = .error e) ∧
    (getAccessToken { noRefreshEnv with staticToken := some "other" } "u").result =
      (getAccessToken noRefreshEnv "u").result ∧
    (getAccessToken { baseEnv with staticToken := some "statictok" } "u").result =
      .ok (some "statictok") := by
  refine ⟨(c5_refresh_failure_propagates.1 noRefreshEnv "u" _ (by decide) rfl (by decide)
      (Or.inl (by decide))).1,
    (c5_refresh_failure_propagates.1 noRefreshEnv "u" _ (by decide) rfl (by decide)
      (Or.inl (by decide))).2 (some "other"),
    c5_refresh_failure_propagates.2 _ "u" "statictok" (by decide) rfl (by decide)⟩

/-! ## C6: team-name matching -/

def kitchenTeam : Team := { id := "t1", name := some "kitchen" }

def officeTeam : Team := { id := "t0", name := some "office" }

/-- C6: matching is case-insensitive with the leading spoken "team " word
stripped and substring comparison: the spoken input "Team Kitchen" selects a
stored team named "kitchen", also when a non-matching team comes first. -/
theorem c6_team_name_matching :
    normalizeTeamName "Team Kitchen" = "kitchen" ∧
    findMatchingTeam [kitchenTeam] "Team Kitchen" = some kitchenTeam ∧
    findMatchingTeam [officeTeam, kitchenTeam] "Team Kitchen" = some kitchenTeam := by
  exact ⟨by decide, by decide, by decide⟩

/-! ## C10: an unnamed team matches every spoken name -/

/-- C10: because the team name is defaulted to the empty string and substring
containment is tested in both directions, a stored team with a missing or
empty name matches every spoken team name, so the team lookup always finds
some team and the "team not found" branch is unreachable. -/
theorem c10_empty_team_name_matches_all :
    ∀ (teams : List Team) (spoken : String) (t : Team),
      t ∈ teams → t.name.getD "" = "" →
      (findMatchingTeam teams spoken).isSome = true := by
  intro teams spoken t ht hname
  have hmatch : matchesTeam (normalizeTeamName spoken) t = true := by
    have h0 : lowerStr (t.name.getD "") = "" := by rw [hname]; rfl
    have h1 : strIncludes (normalizeTeamName spoken) "" = true := by
      unfold strIncludes
      exact containsSeq_nil_needle _
    simp [matchesTeam, h0, h1]
  unfold findMatchingTeam
  exact List.find?_isSome.mpr ⟨t, ht, hmatch⟩

def unnamedTeam : Team := { id := "tx", name := none }

/-- Concrete instance of C10. -/
theorem c10_empty_team_name_matches_all_witness :
    (findMatchingTeam [unnamedTeam] "garage").isSome = true :=
  c10_empty_team_name_matches_all [unnamedTeam] "garage" unnamedTeam (by decide) rfl

/-! ## C2: health check with no token and a remote 401 -/

/-- No token anywhere and the health endpoint rejecting with HTTP 401. -/
def envC2 : Env := { baseEnv with healthOutcome := .httpError 401 }

/-- C2 evaluation: the ApiClient wraps the axios 401 in a plain Error without
a `response` field, so the handler's 401/403 LinkAccount branch never fires;
the actual response is the generic apology with no card (the session does
end). -/
theorem c2_health_401_no_link_card :
    (handleCheckPlantHealth envC2 "u").1 = createErrorResponse healthErrorText ∧
    (handleCheckPlantHealth envC2 "u").1.response.card = none ∧
    (handleCheckPlantHealth envC2 "u").1.response.shouldEndSession = true := by
  exact ⟨rfl, rfl, rfl⟩

/-! ## C3: watering-need inference -/

/-- A team-details plant record that already states it needs water. -/
def plantNeedsWaterSummary : PlantSummary :=
  { id := "p1", name := some "fern", status := some "needs_water"
    needs_water := none, needsWater := none }

/-- A plant-details response with no status signal anywhere. -/
def emptyPlantDetails : PlantDetails :=
  { name := none, status := none, needs_water := none, needsWater := none, checkups := [] }

/-- Environment for a team-status invocation: embedded token, one team whose
details list a plant already marked `needs_water`, and detail fetches that
return no status signal. -/
def envC3 : Env :=
  { baseEnv with
      ctxToken := some "tok"
      teamsOutcome := .ok { teams := some [kitchenTeam] }
      teamDetailsOutcome := fun _ =>
        .ok { name := some "kitchen", plants := some [plantNeedsWaterSummary] }
      plantDetailsOutcome := fun _ => .ok emptyPlantDetails }

/-- C3 counterexample: in the team-scoped aggregation a plant whose
team-details record already states `needs_water` still triggers a per-plant
detail fetch, and the team-summary status is ignored - the plant is even
classified as not needing water. -/
theorem c3_team_scope_counterexample :
    needsWaterStatus plantNeedsWaterSummary.status = true ∧
    (handleCheckTeamPlantStatus envC3 "u" (some "kitchen")).2.plantDetailCalls = ["p1"] ∧
    (handleCheckTeamPlantStatus envC3 "u" (some "kitchen")).1 =
      teamSummaryResponse kitchenTeam [{ name := "fern", id := "p1", needsWatered := false }] := by
  exact ⟨rfl, rfl, rfl⟩

/-- C3 amended: in the list-all aggregation a plant already marked as needing
water in the team details triggers no detail fetch and is classified as
needing water, and a plant with no status in the team summary, plant details,
or checkups is classified as not needing water; the team-scoped aggregation
classifies such a no-status plant as not needing water too, but it always
performs a per-plant detail fetch and ignores the team-summary status. -/
theorem c3_watering_inference_amended :
    (∀ (env : Env) (p : PlantSummary),
      needsWaterStatus p.status = true ∨ p.needs_water = some true ∨ p.needsWater = some true →
      (listPlantNeeds env p).2 = [] ∧
      (listPlantNeeds env p).1 =
        some { name := jsOrD p.name "Unnamed Plant", id := p.id, needsWatered := true }) ∧
    (∀ (env : Env) (p : PlantSummary) (d : PlantDetails),
      p.status = none → p.needs_water = none → p.needsWater = none →
      env.plantDetailsOutcome p.id = .ok d →
      d.status = none → d.needs_water = none → d.needsWater = none → d.checkups = [] →
      (listPlantNeeds env p).1 =
        some { name := jsOrD p.name "Unnamed Plant", id := p.id, needsWatered := false }) ∧
    (∀ (env : Env) (p : PlantSummary) (d : PlantDetails),
      env.plantDetailsOutcome p.id = .ok d →
      d.status = none → d.checkups = [] →
      (teamPlantNeeds env p).1 =
        some { name := jsOrD d.name (jsOrD p.name "Unnamed Plant")
               id := p.id, needsWatered := false }) ∧
    (∀ (env : Env) (p : PlantSummary), (teamPlantNeeds env p).2 = [p.id]) := by
  refine ⟨?_, ?_, ?_, ?_⟩
  · intro env p h
    by_cases hs : needsWaterStatus p.status = true
    · simp [listPlantNeeds, hs]
    · rcases h with h | h | h
      · exact absurd h hs
      · simp [listPlantNeeds, hs, h]
      · simp [listPlantNeeds, hs, h]
  · intro env p d hps hpw hpcw hout hds hdw hdcw hck
    simp [listPlantNeeds, needsWaterStatus, hps, hpw, hpcw, hout, getPlantDetails,
      hds, hdw, hdcw, hck]
  · intro env p d hout hds hck
    simp [teamPlantNeeds, hout, getPlantDetails, hds, hck]
  · intro env p
    rcases h : getPlantDetails (env.plantDetailsOutcome p.id) with e | d <;>
      simp [teamPlantNeeds, h]

/-- A team-details plant record with no status signal. -/
def plainPlantSummary : PlantSummary :=
  { id := "p2", name := some "ivy", status := none, needs_water := none, needsWater := none }

/-- Concrete instances of the four parts of the amended C3. -/
theorem c3_watering_inference_amended_witness :
    (listPlantNeeds baseEnv plantNeedsWaterSummary).2 = [] ∧
    (listPlantNeeds baseEnv plantNeedsWaterSummary).1 =
      some { name := "fern", id := "p1", needsWatered := true } ∧
    (listPlantNeeds envC3 plainPlantSummary).1 =
      some { name := "ivy", id := "p2", needsWatered := false } ∧
    (teamPlantNeeds envC3 plainPlantSummary).1 =
      some { name := "ivy", id := "p2", needsWatered := false } ∧
    (teamPlantNeeds envC3 plainPlantSummary).2 = ["p2"] := by
  refine ⟨(c3_watering_inference_amended.1 baseEnv plantNeedsWaterSummary (Or.inl rfl)).1,
    (c3_watering_inference_amended.1 baseEnv plantNeedsWaterSummary (Or.inl rfl)).2,
    c3_watering_inference_amended.2.1 envC3 plainPlantSummary emptyPlantDetails
      rfl rfl rfl rfl rfl rfl rfl rfl,
    c3_watering_inference_amended.2.2.1 envC3 plainPlantSummary emptyPlantDetails rfl rfl rfl,
    c3_watering_inference_amended.2.2.2 envC3 plainPlantSummary⟩

/-! ## C4: partial failure is excluded, never fatal -/

/-- C4: with two teams where the team-details call for the first fails, the
aggregation and the final response equal those of a run over the surviving
team alone (so the reported counts exclude the failed team's plants); and a
plant whose detail fetch both happened and failed contributes no entry. -/
theorem c4_team_failure_excluded :
    (∀ (env : Env) (tA tB : Team) (e : JsError),
      getTeamDetails (env.teamDetailsOutcome tA.id) = .error e →
      (collectAllPlants env [tA, tB]).entries = (collectAllPlants env [tB]).entries ∧
      (listStatusWithTeams env [tA, tB]).1 = (listStatusWithTeams env [tB]).1) ∧
    (∀ (env : Env) (p : PlantSummary) (e : JsError),
      getPlantDetails (env.plantDetailsOutcome p.id) = .error e →
      (listPlantNeeds env p).2 ≠ [] →
      (listPlantNeeds env p).1 = none) := by
  constructor
  · intro env tA tB e h
    have hent : (collectAllPlants env [tA, tB]).entries = (collectAllPlants env [tB]).entries := by
      simp [collectAllPlants, h]
    refine ⟨hent, ?_⟩
    have hA : ([tA, tB] : List Team).isEmpty = false := rfl
    have hB : ([tB] : List Team).isEmpty = false := rfl
    simp only [listStatusWithTeams, hA, hB, Bool.false_eq_true, if_false, hent]
    split <;> rfl
  · intro env p e h hfetch
    by_cases h1 : needsWaterStatus p.status = true
    · exact absurd (by simp [listPlantNeeds, h1]) hfetch
    · by_cases h2 : (p.needs_water == some true || p.needsWater == some true) = true
      · exact absurd (by simp [listPlantNeeds, h1, h2]) hfetch
      · simp [listPlantNeeds, h1, h2, h]

/-- Environment with two teams: the first team's details call fails, the
second succeeds with one plant marked as needing water. -/
def envC4 : Env :=
  { baseEnv with
      ctxToken := some "tok"
      teamsOutcome := .ok { teams := some [officeTeam, kitchenTeam] }
      teamDetailsOutcome := fun tid =>
        if tid = "t1" then .ok { name := some "kitchen", plants := some [plantNeedsWaterSummary] }
        else .httpError 500
      plantDetailsOutcome := fun _ => .ok emptyPlantDetails }

/-- Concrete instance of C4: team `officeTeam` fails, the aggregate equals the
single-team run and still reports the surviving plant. -/
theorem c4_team_failure_excluded_witness :
    (collectAllPlants envC4 [officeTeam, kitchenTeam]).entries =
      (collectAllPlants envC4 [kitchenTeam]).entries ∧
    (listStatusWithTeams envC4 [officeTeam, kitchenTeam]).1 =
      (listStatusWithTeams envC4 [kitchenTeam]).1 ∧
    (collectAllPlants envC4 [officeTeam, kitchenTeam]).entries =
      [{ name := "fern", id := "p1", needsWatered := true }] := by
  refine ⟨(c4_team_failure_excluded.1 envC4 officeTeam kitchenTeam
      { message := "Failed to retrieve team details", responseStatus := none } rfl).1,
    (c4_team_failure_excluded.1 envC4 officeTeam kitchenTeam
      { message := "Failed to retrieve team details", responseStatus := none } rfl).2,
    rfl⟩

/-! ## C7: ambiguous or missing team match -/

def kgTeam : Team := { id := "kg", name := some "kitchen garden" }

def kwTeam : Team := { id := "kw", name := some "kitchen window" }

/-- Two stored teams both matching the spoken name "kitchen". -/
def envC7 : Env :=
  { baseEnv with
      ctxToken := some "tok"
      teamsOutcome := .ok { teams := some [kgTeam, kwTeam] }
      teamDetailsOutcome := fun _ =>
        .ok { name := some "kitchen garden", plants := some [plainPlantSummary] }
      plantDetailsOutcome := fun _ => .ok emptyPlantDetails }

/-- C7 counterexample: the spoken name "kitchen" matches both stored teams,
yet the handler does not reprompt - it silently selects the first matching
team, fetches its details, and ends the session with a team report. -/
theorem c7_ambiguous_counterexample :
    matchesTeam (normalizeTeamName "kitchen") kgTeam = true ∧
    matchesTeam (normalizeTeamName "kitchen") kwTeam = true ∧
    (handleCheckTeamPlantStatus envC7 "u" (some "kitchen")).1.response.reprompt = none ∧
    (handleCheckTeamPlantStatus envC7 "u" (some "kitchen")).1.response.shouldEndSession = true ∧
    (handleCheckTeamPlantStatus envC7 "u" (some "kitchen")).2.teamDetailCalls = ["kg"] := by
  exact ⟨by decide, by decide, rfl, rfl, rfl⟩

/-- C7 amended: when the spoken team name matches no stored team the handler
lists the available team names and reprompts with the session left open; when
one or more teams match, it does not reprompt but proceeds with the first
matching team in list order (exactly that team's details are fetched). -/
theorem c7_no_match_reprompts :
    (∀ (env : Env) (uid tok s : String) (tdata : TeamsData),
      (getAccessToken env uid).result = .ok (some tok) →
      blankTeamName (some s) = false →
      getTeams env.teamsOutcome = .ok tdata →
      tdata.teams.getD [] ≠ [] →
      findMatchingTeam (tdata.teams.getD []) s = none →
      (handleCheckTeamPlantStatus env uid (some s)).1 =
        teamNotFoundResponse s (tdata.teams.getD []) ∧
      (handleCheckTeamPlantStatus env uid (some s)).1.response.shouldEndSession = false ∧
      (handleCheckTeamPlantStatus env uid (some s)).1.response.reprompt.isSome = true ∧
      strIncludes
        (((handleCheckTeamPlantStatus env uid (some s)).1.response.outputSpeech.map
          (fun o => o.text)).getD "")
        (joinTeamNames (tdata.teams.getD [])) = true) ∧
    (∀ (env : Env) (uid tok s : String) (tdata : TeamsData) (mt : Team),
      (getAccessToken env uid).result = .ok (some tok) →
      blankTeamName (some s) = false →
      getTeams env.teamsOutcome = .ok tdata →
      tdata.teams.getD [] ≠ [] →
      findMatchingTeam (tdata.teams.getD []) s = some mt →
      (handleCheckTeamPlantStatus env uid (some s)).1.response.reprompt = none ∧
      (handleCheckTeamPlantStatus env uid (some s)).2.teamDetailCalls = [mt.id]) := by
  constructor
  · intro env uid tok s tdata h1 h2 h3 h4 h5
    have hne : (tdata.teams.getD []).isEmpty = false := by
      cases hx : tdata.teams.getD [] with
      | nil => exact absurd hx h4
      | cons a l => rfl
    have hmain : (handleCheckTeamPlantStatus env uid (some s)).1 =
        teamNotFoundResponse s (tdata.teams.getD []) := by
      simp [handleCheckTeamPlantStatus, h1, h2, h3, hne, h5]
    refine ⟨hmain, ?_, ?_, ?_⟩
    · rw [hmain]; rfl
    · rw [hmain]; rfl
    · rw [hmain]
      show strIncludes
        ("I couldn\x27t find a team named \"" ++ s ++ "\". Your available teams are: " ++
          joinTeamNames (tdata.teams.getD []) ++
          ". Please try again with one of these team names.")
        (joinTeamNames (tdata.teams.getD [])) = true
      exact strIncludes_append_middle _ _ _
  · intro env uid tok s tdata mt h1 h2 h3 h4 h5
    have hne : (tdata.teams.getD []).isEmpty = false := by
      cases hx : tdata.teams.getD [] with
      | nil => exact absurd hx h4
      | cons a l => rfl
    simp only [handleCheckTeamPlantStatus, h1, h2, h3, hne, h5, Option.getD_some,
      Bool.false_eq_true, if_false]
    rcases hd : getTeamDetails (env.teamDetailsOutcome mt.id) with e | td
    · simp [hd, teamCatchResponse]
      split <;> rfl
    · by_cases hp : (td.plants.getD []).isEmpty = true
      · simp [hd, hp, teamNoPlantsResponse, plainResponse]
      · by_cases hc : (collectTeamPlants env (td.plants.getD [])).1.isEmpty = true
        · simp [hd, hp, hc, teamNoDetailsResponse, plainResponse]
        · simp [hd, hp, hc, teamSummaryResponse, plainResponse]

/-- No stored team matches the spoken name "orchard". -/
def envC7b : Env :=
  { baseEnv with
      ctxToken := some "tok"
      teamsOutcome := .ok { teams := some [kgTeam, kwTeam] } }

/-- Concrete instances of the amended C7: "orchard" matches nothing and gets
the open-session reprompt listing the team names; "kitchen" matches both
teams and the first one's details are fetched. -/
theorem c7_no_match_reprompts_witness :
    (handleCheckTeamPlantStatus envC7b "u" (some "orchard")).1 =
      teamNotFoundResponse "orchard" [kgTeam, kwTeam] ∧
    (handleCheckTeamPlantStatus envC7b "u" (some "orchard")).1.response.shouldEndSession = false ∧
    (handleCheckTeamPlantStatus envC7 "u" (some "kitchen")).2.teamDetailCalls = ["kg"] := by
  refine ⟨?_, ?_, ?_⟩
  · exact (c7_no_match_reprompts.1 envC7b "u" "tok" "orchard"
      { teams := some [kgTeam, kwTeam] } rfl (by decide) rfl (by decide) (by decide)).1
  · exact (c7_no_match_reprompts.1 envC7b "u" "tok" "orchard"
      { teams := some [kgTeam, kwTeam] } rfl (by decide) rfl (by decide) (by decide)).2.1
  · exact (c7_no_match_reprompts.2 envC7 "u" "tok" "kitchen"
      { teams := some [kgTeam, kwTeam] } kgTeam rfl (by decide) rfl (by decide) (by decide)).2

/-! ## C8: per-call request shape and error mapping -/

/-- The thrown error of a failed call (a placeholder for successes). -/
def thrownError {α : Type} (r : Except JsError α) : JsError :=
  match r with
  | .error e => e
  | .ok _ => { message := "", responseStatus := none }

/-- Modelled from the spec: the error taxonomy of its section 7
(`Unauthorized` / `NotFound` / `ServiceUnavailable` / `Timeout` / `Failed`),
keyed on the distinct client error messages. -/
def specErrorKind (e : JsError) : String :=
  if strIncludes e.message "Unauthorized" then "Unauthorized"
  else if strIncludes e.message "not found" then "NotFound"
  else if strIncludes e.message "temporarily unavailable" then "ServiceUnavailable"
  else if strIncludes e.message "timeout" then "Timeout"
  else "Failed"

/-- C8 counterexample: the mapping is not uniform across calls - `getTeams`
maps HTTP 404 to the generic `Failed` kind rather than `NotFound`, and
`checkPlantHealth` maps HTTP 401 to `Failed` rather than `Unauthorized`. -/
theorem c8_error_kind_counterexample :
    getTeams (HttpOutcome.httpError 404 : HttpOutcome TeamsData) =
      .error { message := "Failed to retrieve teams", responseStatus := none } ∧
    specErrorKind { message := "Failed to retrieve teams", responseStatus := none } = "Failed" ∧
    checkPlantHealth (HttpOutcome.httpError 401 : HttpOutcome HealthData) =
      .error { message := "Failed to retrieve plant health data", responseStatus := none } ∧
    specErrorKind { message := "Failed to retrieve plant health data", responseStatus := none } =
      "Failed" := by
  exact ⟨rfl, by decide, rfl, by decide⟩

/-- C8 amended: every call uses the fixed 10-second timeout and sends a bearer
Authorization header when a token is present, but the error mapping is
per-call: the health check maps 5xx to `ServiceUnavailable`, timeout to
`Timeout`, and everything else (401 and 404 included) to `Failed`; the teams
list maps 401 to `Unauthorized` and everything else to `Failed`; team details
and plant details map 404 to `NotFound`, 401 to `Unauthorized`, and
everything else to `Failed`. -/
theorem c8_per_call_error_mapping :
    (∀ t : Option String, (healthRequest t).timeoutMs = 10000) ∧
    (∀ tok : String, (teamsRequest tok).timeoutMs = 10000) ∧
    (∀ tok tid : String, (teamDetailsRequest tok tid).timeoutMs = 10000) ∧
    (∀ tok pid : String, (plantDetailsRequest tok pid).timeoutMs = 10000) ∧
    (∀ (t : Option String) (tok : String), jsTruthy t = some tok →
      bearerHeader tok ∈ (healthRequest t).headers) ∧
    (∀ tok : String, bearerHeader tok ∈ (teamsRequest tok).headers) ∧
    (∀ tok tid : String, bearerHeader tok ∈ (teamDetailsRequest tok tid).headers) ∧
    (∀ tok pid : String, bearerHeader tok ∈ (plantDetailsRequest tok pid).headers) ∧
    (∀ s : Nat, 500 ≤ s →
      specErrorKind (thrownError (checkPlantHealth (.httpError s))) = "ServiceUnavailable") ∧
    specErrorKind (thrownError (checkPlantHealth .timedOut)) = "Timeout" ∧
    (∀ s : Nat, s < 500 →
      specErrorKind (thrownError (checkPlantHealth (.httpError s))) = "Failed") ∧
    specErrorKind (thrownError (getTeams (.httpError 401))) = "Unauthorized" ∧
    (∀ s : Nat, s ≠ 401 →
      specErrorKind (thrownError (getTeams (.httpError s))) = "Failed") ∧
    specErrorKind (thrownError (getTeams .timedOut)) = "Failed" ∧
    specErrorKind (thrownError (getTeamDetails (.httpError 404))) = "NotFound" ∧
    specErrorKind (thrownError (getTeamDetails (.httpError 401))) = "Unauthorized" ∧
    (∀ s : Nat, s ≠ 404 → s ≠ 401 →
      specErrorKind (thrownError (getTeamDetails (.httpError s))) = "Failed") ∧
    specErrorKind (thrownError (getTeamDetails .timedOut)) = "Failed" ∧
    specErrorKind (thrownError (getPlantDetails (.httpError 404))) = "NotFound" ∧
    specErrorKind (thrownError (getPlantDetails (.httpError 401))) = "Unauthorized" ∧
    (∀ s : Nat, s ≠ 404 → s ≠ 401 →
      specErrorKind (thrownError (getPlantDetails (.httpError s))) = "Failed") ∧
    specErrorKind (thrownError (getPlantDetails .timedOut)) = "Failed" := by
  refine ⟨fun t => rfl, fun tok => rfl, fun tok tid => rfl, fun tok pid => rfl,
    ?_, ?_, ?_, ?_, ?_, by decide, ?_, by decide, ?_, by decide,
    by decide, by decide, ?_, by decide, by decide, by decide, ?_, by decide⟩
  · intro t tok h
    simp [healthRequest, h]
  · intro tok; simp [teamsRequest]
  · intro tok tid; simp [teamDetailsRequest]
  · intro tok pid; simp [plantDetailsRequest]
  · intro s hs
    have h5 : (500 ≤ s) = True := by simp [hs]
    simp [checkPlantHealth, h5]
    decide
  · intro s hs
    have h5 : ¬ (500 ≤ s) := by omega
    simp [checkPlantHealth, h5]
    decide
  · intro s hs
    simp [getTeams, hs]
    decide
  · intro s h404 h401
    simp [getTeamDetails, h404, h401]
    decide
  · intro s h404 h401
    simp [getPlantDetails, h404, h401]
    decide

/-- Concrete instances of the amended C8. -/
theorem c8_per_call_error_mapping_witness :
    bearerHeader "tok" ∈ (healthRequest (some "tok")).headers ∧
    specErrorKind (thrownError (checkPlantHealth (.httpError 503))) = "ServiceUnavailable" ∧
    specErrorKind (thrownError (checkPlantHealth (.httpError 404))) = "Failed" ∧
    specErrorKind (thrownError (getTeams (.httpError 404))) = "Failed" ∧
    specErrorKind (thrownError (getTeamDetails (.httpError 500))) = "Failed" ∧
    specErrorKind (thrownError (getPlantDetails (.httpError 500))) = "Failed" := by
  obtain ⟨-, -, -, -, h5, -, -, -, m1, -, m3, -, m5, -, -, -, m9, -, -, -, m13, -⟩ :=
    c8_per_call_error_mapping
  exact ⟨h5 (some "tok") "tok" (by decide), m1 503 (by omega), m3 404 (by omega),
    m5 404 (by decide), m9 500 (by decide) (by decide), m13 500 (by decide) (by decide)⟩

/-! ## C9: the dispatcher invariant -/

set_option maxRecDepth 8192

/-- The response invariant: some non-empty spoken text, and the session ends
exactly when there is no reprompt. -/
def okResponseB (r : AlexaResponse) : Bool :=
  (match r.response.outputSpeech with
   | some o => o.text.length != 0
   | none => false) &&
  (r.response.shouldEndSession == r.response.reprompt.isNone)

theorem okResponseB_plainResponse (t : String) (r : Option String) (c : Option Card) (e : Bool)
    (ht : t.length ≠ 0) (he : e = r.isNone) : okResponseB (plainResponse t r c e) = true := by
  subst he
  cases r <;> simp [okResponseB, plainResponse, ht]

theorem okResponseB_plain_end (t : String) (c : Option Card) (ht : t.length ≠ 0) :
    okResponseB (plainResponse t none c true) = true :=
  okResponseB_plainResponse t none c true ht rfl

theorem okResponseB_plain_open (t rp : String) (c : Option Card) (ht : t.length ≠ 0) :
    okResponseB (plainResponse t (some rp) c false) = true :=
  okResponseB_plainResponse t (some rp) c false ht rfl

theorem checkPlantHealth_ok_status {o : HttpOutcome HealthData} {ph : PlantHealthResponse}
    (h : checkPlantHealth o = .ok ph) : ph.status.length ≠ 0 := by
  cases o with
  | ok d =>
    simp [checkPlantHealth] at h
    rw [← h]
    exact jsOrD_length_ne_zero _ _ (by decide)
  | httpError s =>
    by_cases h5 : 500 ≤ s <;> simp [checkPlantHealth, h5] at h
  | timedOut => simp [checkPlantHealth] at h

theorem ok_healthSuccessResponse {ph : PlantHealthResponse} (h : ph.status.length ≠ 0) :
    okResponseB (healthSuccessResponse ph) = true := by
  unfold healthSuccessResponse
  exact okResponseB_plain_end _ _ h

theorem ok_createErrorResponse (m : String) (hm : m.length ≠ 0) :
    okResponseB (createErrorResponse m) = true := by
  unfold createErrorResponse
  exact okResponseB_plain_end _ _ hm

theorem ok_handleCheckPlantHealth (env : Env) (uid : String) :
    okResponseB (handleCheckPlantHealth env uid).1 = true := by
  unfold handleCheckPlantHealth
  dsimp only
  rcases hg : (getAccessToken env uid).result with e | o
  · simp only [hg]
    exact ok_createErrorResponse healthErrorText (by decide)
  · rcases o with _ | tok <;> simp only [hg] <;>
      rcases hc : checkPlantHealth env.healthOutcome with e2 | ph <;> simp only [hc]
    · split <;> ((try dsimp only); decide)
    · exact ok_healthSuccessResponse (checkPlantHealth_ok_status hc)
    · exact ok_createErrorResponse healthErrorText (by decide)
    · exact ok_healthSuccessResponse (checkPlantHealth_ok_status hc)

theorem ok_listCatchResponse (e : JsError) : okResponseB (listCatchResponse e) = true := by
  unfold listCatchResponse
  split <;> decide

theorem listSummaryMessage_length (a n : List PlantEntry) :
    (listSummaryMessage a n).length ≠ 0 := by
  unfold listSummaryMessage
  split
  · apply length_append_ne_zero_left
    apply length_append_ne_zero_left
    apply length_append_ne_zero_left
    apply length_append_ne_zero_right
    decide
  · apply length_append_ne_zero_left
    apply length_append_ne_zero_left
    apply length_append_ne_zero_left
    apply length_append_ne_zero_left
    decide

theorem ok_listSummaryResponse (l : List PlantEntry) :
    okResponseB (listSummaryResponse l) = true := by
  unfold listSummaryResponse
  exact okResponseB_plain_end _ _ (listSummaryMessage_length _ _)

theorem ok_listStatusWithTeams (env : Env) (teams : List Team) :
    okResponseB (listStatusWithTeams env teams).1 = true := by
  unfold listStatusWithTeams
  dsimp only
  repeat' split
  all_goals dsimp only
  all_goals first
    | decide
    | exact ok_listSummaryResponse _

theorem ok_handleListPlantStatus (env : Env) (uid : String) :
    okResponseB (handleListPlantStatus env uid).1 = true := by
  unfold handleListPlantStatus
  dsimp only
  rcases hg : (getAccessToken env uid).result with e | o
  · simp only [hg]
    exact ok_listCatchResponse e
  · rcases o with _ | tok <;> simp only [hg]
    · decide
    · rcases ht : getTeams env.teamsOutcome with e2 | tdata <;> simp only [ht]
      · exact ok_listCatchResponse e2
      · exact ok_listStatusWithTeams env (tdata.teams.getD [])

theorem ok_teamCatchResponse (e : JsError) : okResponseB (teamCatchResponse e) = true := by
  unfold teamCatchResponse
  split <;> decide

theorem ok_teamNotFoundResponse (s : String) (teams : List Team) :
    okResponseB (teamNotFoundResponse s teams) = true := by
  unfold teamNotFoundResponse
  apply okResponseB_plain_open
  apply length_append_ne_zero_left
  apply length_append_ne_zero_left
  apply length_append_ne_zero_left
  apply length_append_ne_zero_left
  decide

theorem ok_teamNoPlantsResponse (mt : Team) :
    okResponseB (teamNoPlantsResponse mt) = true := by
  unfold teamNoPlantsResponse
  apply okResponseB_plain_end
  apply length_append_ne_zero_left
  apply length_append_ne_zero_left
  decide

theorem ok_teamNoDetailsResponse (mt : Team) :
    okResponseB (teamNoDetailsResponse mt) = true := by
  unfold teamNoDetailsResponse
  apply okResponseB_plain_end
  apply length_append_ne_zero_left
  apply length_append_ne_zero_left
  decide

theorem teamSummaryMessage_length (mt : Team) (l : List PlantEntry) :
    (teamSummaryMessage mt l).length ≠ 0 := by
  have hIn : ("In " : String).length ≠ 0 := by decide
  unfold teamSummaryMessage
  dsimp only
  split
  all_goals repeat apply length_append_ne_zero_left
  all_goals exact hIn

theorem ok_teamSummaryResponse (mt : Team) (l : List PlantEntry) :
    okResponseB (teamSummaryResponse mt l) = true := by
  unfold teamSummaryResponse
  exact okResponseB_plain_end _ _ (teamSummaryMessage_length _ _)

theorem ok_handleCheckTeamPlantStatus (env : Env) (uid : String) (tn : Option String) :
    okResponseB (handleCheckTeamPlantStatus env uid tn).1 = true := by
  unfold handleCheckTeamPlantStatus
  dsimp only
  rcases hg : (getAccessToken env uid).result with e | o
  · simp only [hg]
    exact ok_teamCatchResponse e
  · rcases o with _ | tok <;> simp only [hg]
    · decide
    · by_cases hb : blankTeamName tn = true
      · simp only [hb, if_true]
        try dsimp only
        decide
      · rw [Bool.not_eq_true] at hb
        simp only [hb, Bool.false_eq_true, if_false]
        rcases ht : getTeams env.teamsOutcome with e2 | tdata <;> simp only [ht]
        · exact ok_teamCatchResponse e2
        · split
          · (try dsimp only); decide
          · rcases hf : findMatchingTeam (tdata.teams.getD []) (tn.getD "") with _ | mt <;>
              simp only [hf]
            · exact ok_teamNotFoundResponse _ _
            · rcases hd : getTeamDetails (env.teamDetailsOutcome mt.id) with e3 | td <;>
                simp only [hd]
              · exact ok_teamCatchResponse e3
              · split
                · exact ok_teamNoPlantsResponse mt
                · split
                  · exact ok_teamNoDetailsResponse mt
                  · exact ok_teamSummaryResponse mt _

theorem ok_fallbackTeamsResponse (teams : List Team) :
    okResponseB (fallbackTeamsResponse teams) = true := by
  unfold fallbackTeamsResponse
  apply okResponseB_plain_open
  apply length_append_ne_zero_left
  apply length_append_ne_zero_left
  decide

theorem ok_handleFallbackIntent (env : Env) (uid : String) :
    okResponseB (handleFallbackIntent env uid).1 = true := by
  unfold handleFallbackIntent
  dsimp only
  rcases hg : (getAccessToken env uid).result with e | o
  · simp only [hg]; decide
  · rcases o with _ | tok <;> simp only [hg]
    · decide
    · rcases ht : getTeams env.teamsOutcome with e2 | tdata <;> simp only [ht]
      · decide
      · split
        · (try dsimp only); decide
        · exact ok_fallbackTeamsResponse _

/-- C9: for every intent name (the seven supported ones and the unknown-intent
default) and every environment, the dispatcher's response carries non-empty
spoken text and its session flag is deterministic - the session ends exactly
when the response has no reprompt; Launch and Help leave the session open and
Stop/Cancel close it. -/
theorem c9_dispatcher_invariant :
    (∀ (env : Env) (uid intentName : String) (slot : Option SlotData),
      okResponseB (handleIntentRequest env uid intentName slot).1 = true) ∧
    okResponseB handleLaunchRequest = true ∧
    handleLaunchRequest.response.shouldEndSession = false ∧
    (∀ (env : Env) (uid : String) (slot : Option SlotData),
      (handleIntentRequest env uid "AMAZON.HelpIntent" slot).1.response.shouldEndSession = false ∧
      (handleIntentRequest env uid "AMAZON.StopIntent" slot).1.response.shouldEndSession = true ∧
      (handleIntentRequest env uid "AMAZON.CancelIntent" slot).1.response.shouldEndSession = true) := by
  refine ⟨?_, by decide, rfl, ?_⟩
  · intro env uid nm slot
    unfold handleIntentRequest
    repeat' split
    all_goals first
      | decide
      | exact ok_handleCheckTeamPlantStatus _ _ _
      | exact ok_handleCheckPlantHealth _ _
      | exact ok_handleListPlantStatus _ _
      | exact ok_handleFallbackIntent _ _
  · intro env uid slot
    exact ⟨rfl, rfl, rfl⟩
